import Mathlib

/-!
# Verification of the f1taxmate tax computation and form-field mapping engine

Shallow embedding of the tax-rule engine, the day-presence calculator and the
form-field mappers of the f1taxmate repository.  JavaScript `number` values
that carry currency amounts are modelled as `ℚ` (the computations only use
`+`, `-`, `*`, comparisons and `Math.floor`, all exact on the rationals);
calendar dates are modelled at day granularity as proleptic-Gregorian day
numbers in `ℤ` (the source normalises every date with `setHours(0,0,0,0)`
before comparing or subtracting).  Fallible code (`calculateTax`'s `throw`)
is modelled with `Except`.  PDF form filling is modelled as the ordered list
of (field-name, value) text writes the mapper performs.
-/

namespace F1TaxMate

/-- JavaScript `Math.floor` on a rational number (result is an integer,
kept in `ℚ` because JS stays in `number`). -/
def mathFloor (x : ℚ) : ℚ := ((⌊x⌋ : ℤ) : ℚ)

/-! ## Data model (src/types/form.ts) -/

/-- `W2Form` from types/form.ts (Box 1, 2, 17, 4, 6 and the employer EIN). -/
structure W2Form where
  wages : ℚ
  federalTaxWithheld : ℚ
  stateTaxWithheld : ℚ
  socialSecurityWithheld : ℚ
  medicareWithheld : ℚ
  ein : String
deriving DecidableEq

/-- `Form1099INT` from types/form.ts. -/
structure Form1099INT where
  interestIncome : ℚ
  federalTaxWithheld : ℚ
  stateTaxWithheld : ℚ
deriving DecidableEq

/-- `Form1099MISC` from types/form.ts. -/
structure Form1099MISC where
  otherIncome : ℚ
  federalTaxWithheld : ℚ
  stateTaxWithheld : ℚ
deriving DecidableEq

/-- `IncomeState` union type: `'Illinois' | 'Other'`. -/
inductive IncomeState where
  | Illinois
  | Other
deriving DecidableEq

/-- `IncomeInfo` from types/form.ts (bank details and FICA employer info are
not consumed by any embedded computation and are omitted). -/
structure IncomeInfo where
  hadUSIncome : Bool
  incomeState : Option IncomeState
  ssn : Option String
  w2Forms : List W2Form
  form1099INT : List Form1099INT
  form1099MISC : List Form1099MISC
deriving DecidableEq

/-- `Visit` from types/form.ts.  `entryDate`/`exitDate` are date strings in
the source; they are modelled at day granularity as day numbers, with `none`
standing for an absent or empty (JS-falsy) date string. -/
structure Visit where
  visaType : String
  entryDate : Option ℤ
  exitDate : Option ℤ
deriving DecidableEq

/-- `ResidencyInfo` from types/form.ts. -/
structure ResidencyInfo where
  dateOfFirstVisit : String
  visits : List Visit
  hasFiledTaxReturnBefore : Bool
deriving DecidableEq

/-- The `foreignAddress` part of `PersonalInfo`; only `country` feeds a
computation (jurisdiction dispatch). -/
structure ForeignAddress where
  country : String
deriving DecidableEq

/-- `PersonalInfo` from types/form.ts, restricted to the fields consumed by
the embedded computations and mappers. -/
structure PersonalInfo where
  firstName : String
  lastName : String
  foreignAddress : ForeignAddress
deriving DecidableEq

/-- `FormData` from types/form.ts. -/
structure FormData where
  personalInfo : PersonalInfo
  residencyInfo : ResidencyInfo
  incomeInfo : IncomeInfo
deriving DecidableEq

/-! ## Tax result shapes (src/lib/tax-calculation/index.ts) -/

/-- The `forms` flags of the federal result. -/
structure FederalForms where
  form8843 : Bool
  form1040 : Bool
  form832 : Bool
deriving DecidableEq

/-- `TaxCalculationResult['federalTax']`. -/
structure FederalTaxResult where
  taxOwed : ℚ
  refund : ℚ
  amountOwed : ℚ
  forms : FederalForms
deriving DecidableEq

/-- The `forms` flags of the state result. -/
structure StateForms where
  form1040 : Bool
deriving DecidableEq

/-- `TaxCalculationResult['stateTax']`. -/
structure StateTaxResult where
  taxOwed : ℚ
  refund : ℚ
  amountOwed : ℚ
  forms : StateForms
deriving DecidableEq

/-- `TaxCalculationResult` from src/lib/tax-calculation/index.ts. -/
structure TaxCalculationResult where
  federalTax : FederalTaxResult
  stateTax : StateTaxResult
deriving DecidableEq

/-! ## Federal tax (src/lib/tax-calculation/federal/india.ts) -/

namespace India

/-- One row of the 2025 single-filer bracket table; `max = none` models the
`Infinity` upper bound of the last bracket. -/
structure Bracket where
  min : ℚ
  max : Option ℚ
  rate : ℚ
  base : ℚ

/-- `TAX_BRACKETS` from india.ts. -/
def TAX_BRACKETS : List Bracket :=
  [ { min := 0,      max := some 11925,  rate := 0.10, base := 0 },
    { min := 11926,  max := some 48475,  rate := 0.12, base := 1192.50 },
    { min := 48476,  max := some 103350, rate := 0.22, base := 5578.50 },
    { min := 103351, max := some 197300, rate := 0.24, base := 17651.00 },
    { min := 197301, max := some 250525, rate := 0.32, base := 40199.00 },
    { min := 250526, max := some 626350, rate := 0.35, base := 57231.00 },
    { min := 626351, max := none,        rate := 0.37, base := 188769.75 } ]

/-- `STANDARD_DEDUCTION` from india.ts (India–US treaty Article 21(2)). -/
def STANDARD_DEDUCTION : ℚ := 15750

/-- Upper-bound half of the bracket-membership test: `taxableIncome <= b.max`,
where `b.max = none` models `Infinity` (so the comparison always holds). -/
def bracketUpperOk (x : ℚ) : Option ℚ → Prop
  | some m => x ≤ m
  | none => True

instance (x : ℚ) : (o : Option ℚ) → Decidable (bracketUpperOk x o)
  | some m => inferInstanceAs (Decidable (x ≤ m))
  | none => inferInstanceAs (Decidable True)

/-- The predicate of the `TAX_BRACKETS.find` call in `calculateProgressiveTax`:
`taxableIncome >= b.min && taxableIncome <= b.max` (inclusive on both
bounds). -/
def inBracket (x : ℚ) (b : Bracket) : Prop :=
  b.min ≤ x ∧ bracketUpperOk x b.max

instance (x : ℚ) (b : Bracket) : Decidable (inBracket x b) :=
  inferInstanceAs (Decidable (_ ∧ _))

/-- `Array.prototype.find`: first element satisfying the predicate, here
specialised to the bracket search. -/
def findBracket (x : ℚ) : List Bracket → Option Bracket
  | [] => none
  | b :: rest => if inBracket x b then some b else findBracket x rest

/-- `calculateProgressiveTax` from india.ts. -/
def calculateProgressiveTax (taxableIncome : ℚ) : ℚ :=
  if taxableIncome ≤ 0 then 0
  else
    match findBracket taxableIncome TAX_BRACKETS with
    | none => 0
    | some bracket => bracket.base + (taxableIncome - bracket.min) * bracket.rate

/-- `calculateGrossIncome` from india.ts: one running total over the W-2
wages, then the 1099-INT interest, then the 1099-MISC other income. -/
def calculateGrossIncome (formData : FormData) : ℚ :=
  let t1 := formData.incomeInfo.w2Forms.foldl (fun acc w2 => acc + w2.wages) 0
  let t2 := formData.incomeInfo.form1099INT.foldl (fun acc f => acc + f.interestIncome) t1
  formData.incomeInfo.form1099MISC.foldl (fun acc f => acc + f.otherIncome) t2

/-- `calculateTotalTaxWithheld` from india.ts (W-2 Box 2 plus the 1099
federal withholdings, unfloored). -/
def calculateTotalTaxWithheld (formData : FormData) : ℚ :=
  let t1 := formData.incomeInfo.w2Forms.foldl (fun acc w2 => acc + w2.federalTaxWithheld) 0
  let t2 := formData.incomeInfo.form1099INT.foldl (fun acc f => acc + f.federalTaxWithheld) t1
  formData.incomeInfo.form1099MISC.foldl (fun acc f => acc + f.federalTaxWithheld) t2

/-- The FICA accumulation inside `calculateFederalTax`:
`totalFICAWithheld = Σ (socialSecurityWithheld + medicareWithheld)`. -/
def totalFICAWithheld (formData : FormData) : ℚ :=
  formData.incomeInfo.w2Forms.foldl
    (fun acc w2 => acc + (w2.socialSecurityWithheld + w2.medicareWithheld)) 0

/-- `calculateFederalTax` from india.ts. -/
def calculateFederalTax (formData : FormData) : FederalTaxResult :=
  let grossIncome := calculateGrossIncome formData
  let taxWithheld := calculateTotalTaxWithheld formData
  let taxableIncome := mathFloor (max 0 (grossIncome - STANDARD_DEDUCTION))
  let taxOwed := mathFloor (calculateProgressiveTax taxableIncome)
  let refund := mathFloor (max 0 (taxWithheld - taxOwed))
  let amountOwed := mathFloor (max 0 (taxOwed - taxWithheld))
  let hasFICAWithheld := totalFICAWithheld formData > 0
  { taxOwed := taxOwed
    refund := refund
    amountOwed := amountOwed
    forms :=
      { form8843 := true
        form1040 := formData.incomeInfo.hadUSIncome
        form832 := hasFICAWithheld } }

end India

/-! ## State tax (src/lib/tax-calculation/state/illinois.ts) -/

namespace Illinois

/-- `ILLINOIS_TAX_RATE` (4.95% flat rate). -/
def ILLINOIS_TAX_RATE : ℚ := 0.0495

/-- `PERSONAL_EXEMPTION_SINGLE`. -/
def PERSONAL_EXEMPTION_SINGLE : ℚ := 2850

/-- `HIGH_INCOME_THRESHOLD`. -/
def HIGH_INCOME_THRESHOLD : ℚ := 250000

/-- `calculateGrossIncome` from illinois.ts (same computation as the federal
one, duplicated in the source file). -/
def calculateGrossIncome (formData : FormData) : ℚ :=
  let t1 := formData.incomeInfo.w2Forms.foldl (fun acc w2 => acc + w2.wages) 0
  let t2 := formData.incomeInfo.form1099INT.foldl (fun acc f => acc + f.interestIncome) t1
  formData.incomeInfo.form1099MISC.foldl (fun acc f => acc + f.otherIncome) t2

/-- `calculateStateTaxWithheld` from illinois.ts: the running total adds
`Math.floor` of each per-entry state withholding (W-2, then 1099-INT, then
1099-MISC). -/
def calculateStateTaxWithheld (formData : FormData) : ℚ :=
  let t1 := formData.incomeInfo.w2Forms.foldl
    (fun acc w2 => acc + mathFloor w2.stateTaxWithheld) 0
  let t2 := formData.incomeInfo.form1099INT.foldl
    (fun acc f => acc + mathFloor f.stateTaxWithheld) t1
  formData.incomeInfo.form1099MISC.foldl
    (fun acc f => acc + mathFloor f.stateTaxWithheld) t2

/-- `calculateStateTax` from illinois.ts. -/
def calculateStateTax (formData : FormData) : StateTaxResult :=
  let grossIncome := calculateGrossIncome formData
  let stateTaxWithheld := calculateStateTaxWithheld formData
  let exemption := if grossIncome > HIGH_INCOME_THRESHOLD then 0 else PERSONAL_EXEMPTION_SINGLE
  let taxableIncome := mathFloor (max 0 (grossIncome - exemption))
  let taxOwed := mathFloor (taxableIncome * ILLINOIS_TAX_RATE)
  let refund := mathFloor (max 0 (stateTaxWithheld - taxOwed))
  let amountOwed := mathFloor (max 0 (taxOwed - stateTaxWithheld))
  { taxOwed := taxOwed
    refund := refund
    amountOwed := amountOwed
    forms := { form1040 := formData.incomeInfo.hadUSIncome } }

end Illinois

/-! ## Jurisdiction dispatch (src/lib/tax-calculation/index.ts) -/

/-- JS `String.prototype.toLowerCase`, modelled character-wise on the
string's character list. -/
def jsToLowerCase (s : String) : String := String.mk (s.data.map Char.toLower)

/-- JS `String.prototype.trim`: strip leading and trailing whitespace. -/
def jsTrim (s : String) : String :=
  String.mk (((s.data.dropWhile Char.isWhitespace).reverse.dropWhile Char.isWhitespace).reverse)

/-- JS `s.toLowerCase().trim()` used on the raw country. -/
def normalizeCountry (s : String) : String := jsTrim (jsToLowerCase s)

/-- `calculateTax` from src/lib/tax-calculation/index.ts.  The JS
`formData.personalInfo?.foreignAddress?.country || 'India'` turns an empty
country into `'India'`; an unrecognised country throws, modelled as
`Except.error` carrying the thrown message. -/
def calculateTax (formData : FormData) : Except String TaxCalculationResult :=
  let countryRaw :=
    if formData.personalInfo.foreignAddress.country = "" then "India"
    else formData.personalInfo.foreignAddress.country
  let country := normalizeCountry countryRaw
  let incomeStateIsIllinois := formData.incomeInfo.incomeState = some IncomeState.Illinois
  if country = "india" ∨ country = "indian" ∨ country = "" ∨ country = "foreign country" ∨
      formData.personalInfo.foreignAddress.country = "" then
    let federalResult := India.calculateFederalTax formData
    let stateResult :=
      if incomeStateIsIllinois then Illinois.calculateStateTax formData
      else
        { taxOwed := 0, refund := 0, amountOwed := 0, forms := { form1040 := false } }
    Except.ok { federalTax := federalResult, stateTax := stateResult }
  else
    Except.error
      ("Federal tax calculation not yet supported for " ++ countryRaw ++
        " students. Currently only India is supported.")

/-! ## Net-underpayment refusal (results page, src/tailwind.config.ts) -/

/-- `totalRefund` on the results page: federal refund + state refund. -/
def totalRefund (t : TaxCalculationResult) : ℚ :=
  t.federalTax.refund + t.stateTax.refund

/-- `totalOwed` on the results page: federal amountOwed + state amountOwed
(the JS `|| 0` guards are identities on well-formed numbers). -/
def totalOwed (t : TaxCalculationResult) : ℚ :=
  t.federalTax.amountOwed + t.stateTax.amountOwed

/-- `hasNetUnderpayment` on the results page: `totalOwed > totalRefund`. -/
def hasNetUnderpayment (t : TaxCalculationResult) : Bool :=
  decide (totalOwed t > totalRefund t)

/-- The "Proceed to Payment" button is rendered exactly when
`!hasNetUnderpayment` (the refusal message is rendered otherwise). -/
def proceedToPaymentShown (t : TaxCalculationResult) : Bool :=
  ! hasNetUnderpayment t

/-! ## Day-presence calculator
(src/lib/form-generation/utils/days-calculator.ts)

Dates are modelled as proleptic-Gregorian day numbers (`ℤ`): the source
normalises every date with `setHours(0,0,0,0)` and divides millisecond
differences by 86 400 000, so at that granularity a date is exactly a day
number.  `new Date(`${year}-01-01`)` and `new Date(`${year}-12-31`)` become
`yearStartDay`/`yearEndDay`; the implicit `new Date()` (current date) is an
explicit `today` parameter. -/

/-- Day number of Jan 1 of a Gregorian year (day 0 = Jan 1 of year 1):
365 days per elapsed year plus the elapsed leap days. -/
def yearStartDay (year : ℕ) : ℤ :=
  ((365 * (year - 1) + (year - 1) / 4 - (year - 1) / 100 + (year - 1) / 400 : ℕ) : ℤ)

/-- Day number of Dec 31 of a Gregorian year: the day before Jan 1 of the
next year. -/
def yearEndDay (year : ℕ) : ℤ := yearStartDay (year + 1) - 1

/-- The contribution of a single visit inside the `visits.forEach` loop of
`calculateDaysInUSForYear`.  A visit without entry date contributes 0 (the
`if (visit.entryDate)` guard).  With an exit date the exit is used as is;
without one the code uses `min(today, yearEnd)`.  Entry and exit are clipped
to `[ys, ye]`; when the clipped interval is nonempty the day difference is
added, plus one except when a supplied exit date lies within the year
(`visit.exitDate && exit <= taxYearEnd && exit >= taxYearStart`). -/
def visitDays (today ys ye : ℤ) (v : Visit) : ℤ :=
  match v.entryDate with
  | none => 0
  | some entry =>
    match v.exitDate with
    | some exit =>
      let startDate := if entry > ys then entry else ys
      let endDate := if exit < ye then exit else ye
      if startDate ≤ endDate then
        if exit ≤ ye ∧ ys ≤ exit then endDate - startDate
        else endDate - startDate + 1
      else 0
    | none =>
      let exit := if today < ye then today else ye
      let startDate := if entry > ys then entry else ys
      let endDate := if exit < ye then exit else ye
      if startDate ≤ endDate then endDate - startDate + 1 else 0

/-- `calculateDaysInUSForYear` from days-calculator.ts: the `totalDays`
accumulator over all visits. -/
def calculateDaysInUSForYear (today : ℤ) (residencyInfo : ResidencyInfo)
    (year : ℕ) : ℤ :=
  let taxYearStart := yearStartDay year
  let taxYearEnd := yearEndDay year
  residencyInfo.visits.foldl (fun acc v => acc + visitDays today taxYearStart taxYearEnd v) 0

/-! ## PDF-filler formatting helpers
(pdf-filler.ts, bundled inside src/lib/form-generation/package-fica.ts) -/

/-- JS `s.replace(/\D/g, '')`: keep only the decimal digits. -/
def cleanDigits (s : String) : String := String.mk (s.data.filter Char.isDigit)

/-- JS `s.slice(a, b)` for `0 ≤ a ≤ b` (the only uses in the mappers). -/
def jsSlice (s : String) (a b : ℕ) : String := String.mk ((s.data.drop a).take (b - a))

/-- JS `s.slice(a)` (to the end of the string). -/
def jsSliceFrom (s : String) (a : ℕ) : String := String.mk (s.data.drop a)

/-- JS `s.length` (all strings involved are ASCII digit strings, where the
UTF-16 length is the character count). -/
def jsLength (s : String) : ℕ := s.data.length

/-- `formatSSN` from pdf-filler.ts: dash-grouped `XXX-XX-XXXX` when exactly
9 digits are present, otherwise the raw cleaned digit string. -/
def formatSSN (ssn : String) : String :=
  if ssn = "" then ""
  else
    let cleaned := cleanDigits ssn
    if jsLength cleaned = 9 then
      jsSlice cleaned 0 3 ++ "-" ++ jsSlice cleaned 3 5 ++ "-" ++ jsSliceFrom cleaned 5
    else cleaned

/-- `formatCurrencyForPDFWholeOnly` from pdf-filler.ts:
`String(Math.floor(amount))`. -/
def formatCurrencyForPDFWholeOnly (amount : ℚ) : String := toString ⌊amount⌋

/-! ## Schedule IL-WIT mapper
(src/lib/form-generation/forms/formIL1040ScheduleILWIT.ts)

A filled PDF is modelled as the ordered list of (field-name, value) text
writes the mapper performs on the loaded template. -/

/-- `MAX_W2_ROWS` from formIL1040ScheduleILWIT.ts. -/
def MAX_W2_ROWS : ℕ := 5

/-- The five `setTextField` writes of one W-2 row of Schedule IL-WIT
(`n` is the 1-based row number `i + 1`). -/
def ilwitRowFields (n : ℕ) (w2 : W2Form) : List (String × String) :=
  [ ("Form type - " ++ toString n, "W"),
    ("EIN - " ++ toString n, cleanDigits w2.ein),
    ("Federal wages - " ++ toString n, formatCurrencyForPDFWholeOnly w2.wages),
    ("Illinois wages - " ++ toString n, formatCurrencyForPDFWholeOnly w2.wages),
    ("Illinois withheld - " ++ toString n, toString ⌊w2.stateTaxWithheld⌋) ]

/-- The `for (let i = 0; i < Math.min(w2Forms.length, MAX_W2_ROWS); i++)`
loop of `fillFormIL1040ScheduleILWIT`, run on `w2Forms.take MAX_W2_ROWS`:
returns the row writes and the `totalIllinoisWithheld` accumulator. -/
def ilwitRows (n : ℕ) : List W2Form → (List (String × String) × ℤ)
  | [] => ([], 0)
  | w2 :: rest =>
    let illinoisWithheldFloored := ⌊w2.stateTaxWithheld⌋
    let r := ilwitRows (n + 1) rest
    (ilwitRowFields n w2 ++ r.1, illinoisWithheldFloored + r.2)

/-- The `totalIllinoisWithheld` value written into the schedule's
`'Total amount'` field. -/
def ilwitTotal (formData : FormData) : ℤ :=
  (ilwitRows 1 (formData.incomeInfo.w2Forms.take MAX_W2_ROWS)).2

/-- The header SSN boxes of the Illinois schedules: the cleaned SSN split as
3-2-4 digit groups (each group written only when enough digits exist). -/
def ilwitSSNParts (ssn : String) : String × String × String :=
  let ssnDigits := cleanDigits ssn
  ( if 3 ≤ jsLength ssnDigits then jsSlice ssnDigits 0 3 else ssnDigits,
    if 5 ≤ jsLength ssnDigits then jsSlice ssnDigits 3 5 else "",
    if 9 ≤ jsLength ssnDigits then jsSlice ssnDigits 5 9 else "" )

/-- `fillFormIL1040ScheduleILWIT` from formIL1040ScheduleILWIT.ts, as the
ordered list of text-field writes (name/SSN header, at most `MAX_W2_ROWS`
W-2 rows, then the total). -/
def fillFormIL1040ScheduleILWIT (formData : FormData) : List (String × String) :=
  let fullName := jsTrim (formData.personalInfo.firstName ++ " " ++ formData.personalInfo.lastName)
  let parts := ilwitSSNParts ((formData.incomeInfo.ssn).getD "")
  [ ("Your name", fullName),
    ("Your SSN-3", parts.1),
    ("Your SSN-2", parts.2.1),
    ("Your SSN-4", parts.2.2) ] ++
  (ilwitRows 1 (formData.incomeInfo.w2Forms.take MAX_W2_ROWS)).1 ++
  [ ("Total amount", toString (ilwitTotal formData)) ]

/-! ## Form IL-1040 mapper (src/lib/form-generation/forms/formIL1040.ts)
Only the value-carrying withholding writes are embedded; the remaining
writes of `fillFormIL1040` are personal-data passthroughs and constants. -/

/-- `calculateStateTaxWithheldForForms` from formIL1040.ts: sum of
`Math.floor` of each per-entry state withholding, over the W-2s, the
1099-INTs and the 1099-MISCs. -/
def calculateStateTaxWithheldForForms (formData : FormData) : ℚ :=
  let t1 := formData.incomeInfo.w2Forms.foldl
    (fun acc w2 => acc + mathFloor w2.stateTaxWithheld) 0
  let t2 := formData.incomeInfo.form1099INT.foldl
    (fun acc f => acc + mathFloor f.stateTaxWithheld) t1
  formData.incomeInfo.form1099MISC.foldl
    (fun acc f => acc + mathFloor f.stateTaxWithheld) t2

/-- The value written into the `'Illinois Income Tax withheld'` field of
Form IL-1040 (line 25):
`formatCurrencyForPDFWholeOnly(calculateStateTaxWithheldForForms(formData))`. -/
def il1040IllinoisIncomeTaxWithheldValue (formData : FormData) : String :=
  formatCurrencyForPDFWholeOnly (calculateStateTaxWithheldForForms formData)

/-- The value written into the `'step1-A-ssn'` SSN field of Form IL-1040:
`formatSSN(formData.incomeInfo.ssn || '')`. -/
def il1040SSNValue (formData : FormData) : String :=
  formatSSN ((formData.incomeInfo.ssn).getD "")

/-! ## Form 8843 and Form 1040-NR SSN fields
(src/lib/form-generation/forms/form8843.ts, form1040nr.ts) -/

/-- The value written into Form 8843's SSN field `f1_06`:
`formatSSN(formData.incomeInfo.ssn || '')`. -/
def form8843SSNValue (formData : FormData) : String :=
  formatSSN ((formData.incomeInfo.ssn).getD "")

/-- The value written into Form 1040-NR's SSN field `f1_16` (the field only
accepts 9 digits): `(formData.incomeInfo.ssn || '').replace(/\D/g, '')`,
with no dashes. -/
def form1040nrSSNValue (formData : FormData) : String :=
  cleanDigits ((formData.incomeInfo.ssn).getD "")

/-! ## Specification-side definitions

These are written from the specification's wording, independently of the
source translations above, to be compared with them. -/

/-- Spec wording: "`taxOwed = floor(progressiveBracketTax(taxableIncome))`
using a fixed 7-bracket table (10/12/22/24/32/35/37% marginal rates with
published 2025 breakpoints and precomputed base amounts per bracket …
amount over bracket floor × marginal rate + bracket's accumulated base)",
written as a direct piecewise case split on the published breakpoints. -/
def bracketTaxSpec (x : ℚ) : ℚ :=
  if x ≤ 11925 then 0.10 * x
  else if x ≤ 48475 then 1192.50 + 0.12 * (x - 11926)
  else if x ≤ 103350 then 5578.50 + 0.22 * (x - 48476)
  else if x ≤ 197300 then 17651.00 + 0.24 * (x - 103351)
  else if x ≤ 250525 then 40199.00 + 0.32 * (x - 197301)
  else if x ≤ 626350 then 57231.00 + 0.35 * (x - 250526)
  else 188769.75 + 0.37 * (x - 626351)

/-- Spec wording: "`exemption = grossIncome > 250000 ? 0 : 2850` …
`grossIncome` exactly at the Illinois high-income threshold (250000)
retains the exemption; 250001 loses it entirely", written from the
retention side: the exemption is granted exactly when income is at or
below the threshold. -/
def ilExemptionSpec (grossIncome : ℚ) : ℚ :=
  if grossIncome ≤ 250000 then 2850 else 0

/-- Spec wording: "the sum of the per-entry floored withholding values"
over every W-2, 1099-INT and 1099-MISC entry, as a sum of mapped lists. -/
def specStateWithholdingSum (formData : FormData) : ℚ :=
  ((formData.incomeInfo.w2Forms.map (fun w2 => mathFloor w2.stateTaxWithheld)).sum) +
  ((formData.incomeInfo.form1099INT.map (fun f => mathFloor f.stateTaxWithheld)).sum) +
  ((formData.incomeInfo.form1099MISC.map (fun f => mathFloor f.stateTaxWithheld)).sum)

/-! ## Concrete records used by counterexamples and witnesses -/

/-- A W-2 with the given wages and withholdings (no FICA withheld). -/
def mkW2 (wages fed state : ℚ) : W2Form :=
  { wages := wages, federalTaxWithheld := fed, stateTaxWithheld := state,
    socialSecurityWithheld := 0, medicareWithheld := 0, ein := "12-3456789" }

/-- Income info with US income in Illinois and no entries. -/
def emptyIncomeInfo : IncomeInfo :=
  { hadUSIncome := true, incomeState := some IncomeState.Illinois,
    ssn := some "123456789", w2Forms := [], form1099INT := [], form1099MISC := [] }

/-- A base record for an Indian filer with Illinois income and no entries. -/
def baseFormData : FormData :=
  { personalInfo :=
      { firstName := "Asha", lastName := "Rao", foreignAddress := { country := "India" } }
    residencyInfo := { dateOfFirstVisit := "", visits := [], hasFiledTaxReturnBefore := false }
    incomeInfo := emptyIncomeInfo }

/-- C1 counterexample record: no W-2, one 1099-INT with state withholding
100. -/
def fdC1 : FormData :=
  { baseFormData with incomeInfo :=
      { emptyIncomeInfo with form1099INT :=
          [{ interestIncome := 0, federalTaxWithheld := 0, stateTaxWithheld := 100 }] } }

/-- C2 counterexample record: one W-2 with wages 30000 and federal
withholding 1471.50 (one half dollar above the tax owed of 1471). -/
def fdC2 : FormData :=
  { baseFormData with incomeInfo :=
      { emptyIncomeInfo with w2Forms := [mkW2 30000 1471.5 0] } }

/-- The spec's concrete scenario: one W-2 with wages 30000, federal
withholding 2000, state withholding 1000, Illinois income. -/
def fdC3 : FormData :=
  { baseFormData with incomeInfo :=
      { emptyIncomeInfo with w2Forms := [mkW2 30000 2000 1000] } }

/-- Gross income exactly at the Illinois threshold 250000. -/
def fdC4a : FormData :=
  { baseFormData with incomeInfo :=
      { emptyIncomeInfo with w2Forms := [mkW2 250000 0 0] } }

/-- Gross income 250001, one dollar above the Illinois threshold. -/
def fdC4b : FormData :=
  { baseFormData with incomeInfo :=
      { emptyIncomeInfo with w2Forms := [mkW2 250001 0 0] } }

/-- C5 concrete result: federal refund 200, state amountOwed 500. -/
def tC5 : TaxCalculationResult :=
  { federalTax :=
      { taxOwed := 1800, refund := 200, amountOwed := 0,
        forms := { form8843 := true, form1040 := true, form832 := false } }
    stateTax :=
      { taxOwed := 500, refund := 0, amountOwed := 500,
        forms := { form1040 := true } } }

/-- C8 concrete record: foreign-address country Germany. -/
def fdC8 : FormData :=
  { baseFormData with personalInfo :=
      { baseFormData.personalInfo with foreignAddress := { country := "Germany" } } }

/-- C9 concrete record: a full 9-digit SSN. -/
def fdC9 : FormData :=
  { baseFormData with incomeInfo := { emptyIncomeInfo with ssn := some "123456789" } }

/-! ## General helper lemmas -/

/-- A `foldl` that keeps adding `f x` to an accumulator computes the sum of
the mapped list. -/
theorem foldl_add_eq_add_sum {α M : Type*} [AddCommMonoid M] (f : α → M) :
    ∀ (l : List α) (a : M), l.foldl (fun acc x => acc + f x) a = a + (l.map f).sum
  | [], a => by simp
  | x :: l, a => by
    simp only [List.foldl_cons, List.map_cons, List.sum_cons]
    rw [foldl_add_eq_add_sum f l (a + f x), add_assoc]

theorem mathFloor_max_nonneg (x : ℚ) : 0 ≤ mathFloor (max 0 x) := by
  unfold mathFloor
  have h : (0 : ℤ) ≤ ⌊max 0 x⌋ := Int.le_floor.mpr (by simp)
  exact_mod_cast h

theorem one_le_of_mathFloor_max_pos {x : ℚ} (h : 0 < mathFloor (max 0 x)) : 1 ≤ x := by
  unfold mathFloor at h
  have h1 : (0 : ℤ) < ⌊max 0 x⌋ := by exact_mod_cast h
  have h2 : (1 : ℚ) ≤ max 0 x := Int.le_floor.mp h1
  rcases le_max_iff.mp h2 with h3 | h3
  · norm_num at h3
  · exact h3

/-- The `totalIllinoisWithheld` accumulator of the Schedule IL-WIT loop is
the sum of the floored per-row state withholdings. -/
theorem ilwitRows_snd_eq : ∀ (n : ℕ) (l : List W2Form),
    (ilwitRows n l).2 = (l.map (fun w2 => ⌊w2.stateTaxWithheld⌋)).sum
  | _, [] => by simp [ilwitRows]
  | n, w2 :: l => by
    simp only [ilwitRows, List.map_cons, List.sum_cons]
    rw [ilwitRows_snd_eq (n + 1) l]

/-- The day-presence accumulator is the sum of the per-visit day counts. -/
theorem calculateDaysInUSForYear_eq_sum (today : ℤ) (ri : ResidencyInfo) (year : ℕ) :
    calculateDaysInUSForYear today ri year =
      (ri.visits.map (visitDays today (yearStartDay year) (yearEndDay year))).sum := by
  unfold calculateDaysInUSForYear
  rw [foldl_add_eq_add_sum]
  exact zero_add _

/-- Jan 1 is never after Dec 31 of the same (positive) year. -/
theorem yearStartDay_le_yearEndDay {year : ℕ} (h : 1 ≤ year) :
    yearStartDay year ≤ yearEndDay year := by
  unfold yearEndDay yearStartDay
  push_cast
  omega

/-- Moving a visit's exit date later never shrinks its day contribution. -/
theorem visitDays_exit_mono (today ys ye : ℤ) (vt : String) (e x x' : ℤ) (h : x ≤ x') :
    visitDays today ys ye ⟨vt, some e, some x⟩ ≤ visitDays today ys ye ⟨vt, some e, some x'⟩ := by
  simp only [visitDays]
  split_ifs <;> omega

/-- Moving a visit's entry date later never grows its day contribution. -/
theorem visitDays_entry_mono (today ys ye : ℤ) (vt : String) (e e' : ℤ) (ex : Option ℤ)
    (h : e ≤ e') :
    visitDays today ys ye ⟨vt, some e', ex⟩ ≤ visitDays today ys ye ⟨vt, some e, ex⟩ := by
  cases ex <;> (simp only [visitDays]; split_ifs <;> omega)

/-- Replacing one list element by one with a larger `f`-value can only grow
the mapped sum. -/
theorem sum_map_le_sum_map_set {α : Type*} (f : α → ℤ) :
    ∀ (l : List α) (i : ℕ) (a b : α), l[i]? = some a → f a ≤ f b →
      (l.map f).sum ≤ ((l.set i b).map f).sum
  | [], i, a, b, h, _ => by simp at h
  | x :: l, 0, a, b, h, hf => by
    simp only [List.getElem?_cons_zero, Option.some.injEq] at h
    subst h
    simp only [List.set_cons_zero, List.map_cons, List.sum_cons]
    exact add_le_add_right hf _
  | x :: l, i + 1, a, b, h, hf => by
    simp only [List.getElem?_cons_succ] at h
    simp only [List.set_cons_succ, List.map_cons, List.sum_cons]
    exact add_le_add_left (sum_map_le_sum_map_set f l i a b h hf) _

/-- Replacing one list element by one with a smaller `f`-value can only
shrink the mapped sum. -/
theorem sum_map_set_le_sum_map {α : Type*} (f : α → ℤ) :
    ∀ (l : List α) (i : ℕ) (a b : α), l[i]? = some a → f b ≤ f a →
      ((l.set i b).map f).sum ≤ (l.map f).sum
  | [], i, a, b, h, _ => by simp at h
  | x :: l, 0, a, b, h, hf => by
    simp only [List.getElem?_cons_zero, Option.some.injEq] at h
    subst h
    simp only [List.set_cons_zero, List.map_cons, List.sum_cons]
    exact add_le_add_right hf _
  | x :: l, i + 1, a, b, h, hf => by
    simp only [List.getElem?_cons_succ] at h
    simp only [List.set_cons_succ, List.map_cons, List.sum_cons]
    exact add_le_add_left (sum_map_set_le_sum_map f l i a b h hf) _

/-- A visit with no entry date contributes nothing. -/
theorem visitDays_of_entryDate_none {v : Visit} (h : v.entryDate = none)
    (today ys ye : ℤ) : visitDays today ys ye v = 0 := by
  obtain ⟨vt, ed, xd⟩ := v
  cases h
  rfl

/-- The bracket search of `calculateProgressiveTax` agrees with the spec's
piecewise bracket formula on every integer taxable income `n ≥ 0` (the only
values it is applied to, since taxable income is floored first). -/
theorem calculateProgressiveTax_eq_bracketTaxSpec (n : ℤ) (hn : 0 ≤ n) :
    India.calculateProgressiveTax (n : ℚ) = bracketTaxSpec (n : ℚ) := by
  rcases eq_or_lt_of_le hn with h0 | hpos
  · rw [← h0]
    norm_num [India.calculateProgressiveTax, bracketTaxSpec]
  · have hx : (0:ℚ) < (n:ℚ) := by exact_mod_cast hpos
    unfold India.calculateProgressiveTax
    rw [if_neg (by linarith)]
    simp only [India.TAX_BRACKETS, India.findBracket]
    by_cases c1 : n ≤ 11925
    · have hb1 : India.inBracket (n:ℚ) { min := 0, max := some 11925, rate := 0.10, base := 0 } :=
        ⟨show (0:ℚ) ≤ (n:ℚ) by exact_mod_cast hn, show (n:ℚ) ≤ 11925 by exact_mod_cast c1⟩
      rw [if_pos hb1]
      simp only [bracketTaxSpec]
      rw [if_pos (show (n:ℚ) ≤ 11925 by exact_mod_cast c1)]
      ring
    · have hno1 : ¬ India.inBracket (n:ℚ) { min := 0, max := some 11925, rate := 0.10, base := 0 } :=
        fun h => c1 (by exact_mod_cast (show (n:ℚ) ≤ 11925 from h.2))
      rw [if_neg hno1]
      by_cases c2 : n ≤ 48475
      · have hb2 : India.inBracket (n:ℚ) { min := 11926, max := some 48475, rate := 0.12, base := 1192.50 } :=
          ⟨show (11926:ℚ) ≤ (n:ℚ) by exact_mod_cast (show ((11926:ℤ)) ≤ n by omega), show (n:ℚ) ≤ 48475 by exact_mod_cast c2⟩
        rw [if_pos hb2]
        simp only [bracketTaxSpec]
        rw [if_neg (show ¬ ((n:ℚ) ≤ 11925) by exact_mod_cast c1),
            if_pos (show (n:ℚ) ≤ 48475 by exact_mod_cast c2)]
        ring
      · have hno2 : ¬ India.inBracket (n:ℚ) { min := 11926, max := some 48475, rate := 0.12, base := 1192.50 } :=
          fun h => c2 (by exact_mod_cast (show (n:ℚ) ≤ 48475 from h.2))
        rw [if_neg hno2]
        by_cases c3 : n ≤ 103350
        · have hb3 : India.inBracket (n:ℚ) { min := 48476, max := some 103350, rate := 0.22, base := 5578.50 } :=
            ⟨show (48476:ℚ) ≤ (n:ℚ) by exact_mod_cast (show ((48476:ℤ)) ≤ n by omega), show (n:ℚ) ≤ 103350 by exact_mod_cast c3⟩
          rw [if_pos hb3]
          simp only [bracketTaxSpec]
          rw [if_neg (show ¬ ((n:ℚ) ≤ 11925) by exact_mod_cast c1),
              if_neg (show ¬ ((n:ℚ) ≤ 48475) by exact_mod_cast c2),
              if_pos (show (n:ℚ) ≤ 103350 by exact_mod_cast c3)]
          ring
        · have hno3 : ¬ India.inBracket (n:ℚ) { min := 48476, max := some 103350, rate := 0.22, base := 5578.50 } :=
            fun h => c3 (by exact_mod_cast (show (n:ℚ) ≤ 103350 from h.2))
          rw [if_neg hno3]
          by_cases c4 : n ≤ 197300
          · have hb4 : India.inBracket (n:ℚ) { min := 103351, max := some 197300, rate := 0.24, base := 17651.00 } :=
              ⟨show (103351:ℚ) ≤ (n:ℚ) by exact_mod_cast (show ((103351:ℤ)) ≤ n by omega), show (n:ℚ) ≤ 197300 by exact_mod_cast c4⟩
            rw [if_pos hb4]
            simp only [bracketTaxSpec]
            rw [if_neg (show ¬ ((n:ℚ) ≤ 11925) by exact_mod_cast c1),
                if_neg (show ¬ ((n:ℚ) ≤ 48475) by exact_mod_cast c2),
                if_neg (show ¬ ((n:ℚ) ≤ 103350) by exact_mod_cast c3),
                if_pos (show (n:ℚ) ≤ 197300 by exact_mod_cast c4)]
            ring
          · have hno4 : ¬ India.inBracket (n:ℚ) { min := 103351, max := some 197300, rate := 0.24, base := 17651.00 } :=
              fun h => c4 (by exact_mod_cast (show (n:ℚ) ≤ 197300 from h.2))
            rw [if_neg hno4]
            by_cases c5 : n ≤ 250525
            · have hb5 : India.inBracket (n:ℚ) { min := 197301, max := some 250525, rate := 0.32, base := 40199.00 } :=
                ⟨show (197301:ℚ) ≤ (n:ℚ) by exact_mod_cast (show ((197301:ℤ)) ≤ n by omega), show (n:ℚ) ≤ 250525 by exact_mod_cast c5⟩
              rw [if_pos hb5]
              simp only [bracketTaxSpec]
              rw [if_neg (show ¬ ((n:ℚ) ≤ 11925) by exact_mod_cast c1),
                  if_neg (show ¬ ((n:ℚ) ≤ 48475) by exact_mod_cast c2),
                  if_neg (show ¬ ((n:ℚ) ≤ 103350) by exact_mod_cast c3),
                  if_neg (show ¬ ((n:ℚ) ≤ 197300) by exact_mod_cast c4),
                  if_pos (show (n:ℚ) ≤ 250525 by exact_mod_cast c5)]
              ring
            · have hno5 : ¬ India.inBracket (n:ℚ) { min := 197301, max := some 250525, rate := 0.32, base := 40199.00 } :=
                fun h => c5 (by exact_mod_cast (show (n:ℚ) ≤ 250525 from h.2))
              rw [if_neg hno5]
              by_cases c6 : n ≤ 626350
              · have hb6 : India.inBracket (n:ℚ) { min := 250526, max := some 626350, rate := 0.35, base := 57231.00 } :=
                  ⟨show (250526:ℚ) ≤ (n:ℚ) by exact_mod_cast (show ((250526:ℤ)) ≤ n by omega), show (n:ℚ) ≤ 626350 by exact_mod_cast c6⟩
                rw [if_pos hb6]
                simp only [bracketTaxSpec]
                rw [if_neg (show ¬ ((n:ℚ) ≤ 11925) by exact_mod_cast c1),
                    if_neg (show ¬ ((n:ℚ) ≤ 48475) by exact_mod_cast c2),
                    if_neg (show ¬ ((n:ℚ) ≤ 103350) by exact_mod_cast c3),
                    if_neg (show ¬ ((n:ℚ) ≤ 197300) by exact_mod_cast c4),
                    if_neg (show ¬ ((n:ℚ) ≤ 250525) by exact_mod_cast c5),
                    if_pos (show (n:ℚ) ≤ 626350 by exact_mod_cast c6)]
                ring
              · have hno6 : ¬ India.inBracket (n:ℚ) { min := 250526, max := some 626350, rate := 0.35, base := 57231.00 } :=
                  fun h => c6 (by exact_mod_cast (show (n:ℚ) ≤ 626350 from h.2))
                rw [if_neg hno6]
                have hb7 : India.inBracket (n:ℚ) { min := 626351, max := none, rate := 0.37, base := 188769.75 } :=
                  ⟨show (626351:ℚ) ≤ (n:ℚ) by exact_mod_cast (show ((626351:ℤ)) ≤ n by omega), trivial⟩
                rw [if_pos hb7]
                simp only [bracketTaxSpec]
                rw [if_neg (show ¬ ((n:ℚ) ≤ 11925) by exact_mod_cast c1),
                    if_neg (show ¬ ((n:ℚ) ≤ 48475) by exact_mod_cast c2),
                    if_neg (show ¬ ((n:ℚ) ≤ 103350) by exact_mod_cast c3),
                    if_neg (show ¬ ((n:ℚ) ≤ 197300) by exact_mod_cast c4),
                    if_neg (show ¬ ((n:ℚ) ≤ 250525) by exact_mod_cast c5),
                    if_neg (show ¬ ((n:ℚ) ≤ 626350) by exact_mod_cast c6)]
                ring

/-- Residency record used by the C7 witness: one visit fully inside 2024. -/
def riC7 : ResidencyInfo :=
  { dateOfFirstVisit := "", visits := [⟨"F1", some 738900, some 738910⟩],
    hasFiledTaxReturnBefore := false }

/-! ## Claim theorems -/

/-- C1 (counterexample): the claim says the state-tax `stateWithheld`, the
IL-1040 'Illinois Income Tax withheld' value and the Schedule IL-WIT 'Total
amount' are all equal, each the sum of floored withholding over every W-2,
1099-INT and 1099-MISC entry.  On the record `fdC1` (a single 1099-INT with
state withholding 100, no W-2) the schedule total is 0 while the shared sum
is 100, so the three-way identity fails. -/
theorem c1_illinois_withholding_identity_cex :
    ¬ (Illinois.calculateStateTaxWithheld fdC1 = specStateWithholdingSum fdC1
       ∧ calculateStateTaxWithheldForForms fdC1 = specStateWithholdingSum fdC1
       ∧ ((ilwitTotal fdC1 : ℤ) : ℚ) = specStateWithholdingSum fdC1) := by
  norm_num [Illinois.calculateStateTaxWithheld, calculateStateTaxWithheldForForms,
    specStateWithholdingSum, ilwitTotal, ilwitRows, MAX_W2_ROWS, mathFloor, fdC1,
    baseFormData, emptyIncomeInfo, List.foldl, List.take]

/-- C1 (amended): the state-tax `stateWithheld` and the IL-1040 'Illinois
Income Tax withheld' value are one shared quantity, each the sum of
floor(per-entry state withholding) over every W-2, 1099-INT and 1099-MISC
entry; the Schedule IL-WIT 'Total amount', however, is the sum of the
floored withholdings of only the first five W-2 entries (which the IL-1040
writes as its whole-dollar string). -/
theorem c1_illinois_withholding_identity_amended : ∀ fd : FormData,
    Illinois.calculateStateTaxWithheld fd = calculateStateTaxWithheldForForms fd
    ∧ Illinois.calculateStateTaxWithheld fd = specStateWithholdingSum fd
    ∧ ilwitTotal fd =
        ((fd.incomeInfo.w2Forms.take MAX_W2_ROWS).map (fun w2 => ⌊w2.stateTaxWithheld⌋)).sum
    ∧ il1040IllinoisIncomeTaxWithheldValue fd =
        toString ⌊calculateStateTaxWithheldForForms fd⌋ := by
  intro fd
  refine ⟨rfl, ?_, ilwitRows_snd_eq _ _, rfl⟩
  unfold Illinois.calculateStateTaxWithheld specStateWithholdingSum
  rw [foldl_add_eq_add_sum, foldl_add_eq_add_sum, foldl_add_eq_add_sum]
  ring

/-- C2 (counterexample): the claim says refund = max(0, withheld − taxOwed)
with no flooring and that exactly one of refund/amountOwed is nonzero.  On
`fdC2` (wages 30000, federal withholding 1471.50, tax owed 1471) the code
floors the half dollar away: refund = 0 and amountOwed = 0, so refund
differs from max(0, withheld − taxOwed) = 0.5 and neither field is
nonzero. -/
theorem c2_refund_amountOwed_invariant_cex :
    ¬ (0 ≤ (India.calculateFederalTax fdC2).refund
       ∧ 0 ≤ (India.calculateFederalTax fdC2).amountOwed
       ∧ (India.calculateFederalTax fdC2).refund =
           max 0 (India.calculateTotalTaxWithheld fdC2 - (India.calculateFederalTax fdC2).taxOwed)
       ∧ (India.calculateFederalTax fdC2).amountOwed =
           max 0 ((India.calculateFederalTax fdC2).taxOwed - India.calculateTotalTaxWithheld fdC2)
       ∧ ((India.calculateFederalTax fdC2).refund ≠ 0 ∧ (India.calculateFederalTax fdC2).amountOwed = 0
          ∨ (India.calculateFederalTax fdC2).refund = 0 ∧ (India.calculateFederalTax fdC2).amountOwed ≠ 0)) := by
  norm_num [India.calculateFederalTax, India.calculateGrossIncome, India.calculateTotalTaxWithheld,
    India.totalFICAWithheld, India.calculateProgressiveTax, India.findBracket, India.TAX_BRACKETS,
    India.inBracket, India.bracketUpperOk, India.STANDARD_DEDUCTION, mathFloor, fdC2, mkW2,
    baseFormData, emptyIncomeInfo, List.foldl]

/-- C2 (amended): for every income record, in both the federal and the state
result, refund and amountOwed are ≥ 0, refund = floor(max(0, withheld −
taxOwed)), amountOwed = floor(max(0, taxOwed − withheld)), and they are
never both positive (at most one is nonzero). -/
theorem c2_refund_amountOwed_invariant_amended (fd : FormData) :
    (0 ≤ (India.calculateFederalTax fd).refund
     ∧ 0 ≤ (India.calculateFederalTax fd).amountOwed
     ∧ (India.calculateFederalTax fd).refund =
         mathFloor (max 0 (India.calculateTotalTaxWithheld fd - (India.calculateFederalTax fd).taxOwed))
     ∧ (India.calculateFederalTax fd).amountOwed =
         mathFloor (max 0 ((India.calculateFederalTax fd).taxOwed - India.calculateTotalTaxWithheld fd))
     ∧ ¬(0 < (India.calculateFederalTax fd).refund ∧ 0 < (India.calculateFederalTax fd).amountOwed))
    ∧ (0 ≤ (Illinois.calculateStateTax fd).refund
     ∧ 0 ≤ (Illinois.calculateStateTax fd).amountOwed
     ∧ (Illinois.calculateStateTax fd).refund =
         mathFloor (max 0 (Illinois.calculateStateTaxWithheld fd - (Illinois.calculateStateTax fd).taxOwed))
     ∧ (Illinois.calculateStateTax fd).amountOwed =
         mathFloor (max 0 ((Illinois.calculateStateTax fd).taxOwed - Illinois.calculateStateTaxWithheld fd))
     ∧ ¬(0 < (Illinois.calculateStateTax fd).refund ∧ 0 < (Illinois.calculateStateTax fd).amountOwed)) := by
  have key : ∀ T W : ℚ, ¬(0 < mathFloor (max 0 (W - T)) ∧ 0 < mathFloor (max 0 (T - W))) := by
    rintro T W ⟨h1, h2⟩
    have a1 := one_le_of_mathFloor_max_pos h1
    have a2 := one_le_of_mathFloor_max_pos h2
    linarith
  exact ⟨⟨mathFloor_max_nonneg _, mathFloor_max_nonneg _, rfl, rfl, key _ _⟩,
         ⟨mathFloor_max_nonneg _, mathFloor_max_nonneg _, rfl, rfl, key _ _⟩⟩

/-- C3: the federal (India rule) computation: grossIncome is the unfloored
sum of all W-2 wages, 1099-INT interest and 1099-MISC other income; taxOwed
is the floor of the spec's 7-bracket 2025 single-filer piecewise formula
applied to floor(max(0, grossIncome − 15750)); and on the spec's example
record (one W-2, wages 30000, federal withholding 2000) the taxable income
is 14250, taxOwed 1471, refund 529 and amountOwed 0. -/
theorem c3_federal_india_computation :
    (∀ fd : FormData,
      India.calculateGrossIncome fd =
        (fd.incomeInfo.w2Forms.map (fun w2 => w2.wages)).sum +
        (fd.incomeInfo.form1099INT.map (fun f => f.interestIncome)).sum +
        (fd.incomeInfo.form1099MISC.map (fun f => f.otherIncome)).sum)
    ∧ (∀ fd : FormData,
      (India.calculateFederalTax fd).taxOwed =
        mathFloor (bracketTaxSpec (mathFloor (max 0 (India.calculateGrossIncome fd - 15750)))))
    ∧ mathFloor (max 0 (India.calculateGrossIncome fdC3 - 15750)) = 14250
    ∧ (India.calculateFederalTax fdC3).taxOwed = 1471
    ∧ (India.calculateFederalTax fdC3).refund = 529
    ∧ (India.calculateFederalTax fdC3).amountOwed = 0 := by
  refine ⟨fun fd => ?_, fun fd => ?_, ?_, ?_, ?_, ?_⟩
  · unfold India.calculateGrossIncome
    rw [foldl_add_eq_add_sum, foldl_add_eq_add_sum, foldl_add_eq_add_sum]
    ring
  · have hn : (0:ℤ) ≤ ⌊max 0 (India.calculateGrossIncome fd - 15750)⌋ :=
      Int.le_floor.mpr (by simp)
    have h := calculateProgressiveTax_eq_bracketTaxSpec _ hn
    calc (India.calculateFederalTax fd).taxOwed
        = mathFloor (India.calculateProgressiveTax
            (mathFloor (max 0 (India.calculateGrossIncome fd - 15750)))) := rfl
      _ = mathFloor (bracketTaxSpec (mathFloor (max 0 (India.calculateGrossIncome fd - 15750)))) := by
          rw [show mathFloor (max 0 (India.calculateGrossIncome fd - 15750)) =
                ((⌊max 0 (India.calculateGrossIncome fd - 15750)⌋ : ℤ) : ℚ) from rfl, h]
  all_goals
    norm_num [India.calculateFederalTax, India.calculateGrossIncome, India.calculateTotalTaxWithheld,
      India.totalFICAWithheld, India.calculateProgressiveTax, India.findBracket, India.TAX_BRACKETS,
      India.inBracket, India.bracketUpperOk, India.STANDARD_DEDUCTION, mathFloor, fdC3, mkW2,
      baseFormData, emptyIncomeInfo, List.foldl]

/-- C4: the Illinois computation grants the 2850 single-filer exemption
exactly when grossIncome ≤ 250000 (spec-side `ilExemptionSpec`) and computes
taxOwed = floor(floor(max(0, grossIncome − exemption)) × 0.0495); at
grossIncome 250000 the full exemption is kept (tax 12233 on 247150) while
250001 loses it entirely (tax 12375 on 250001) — a hard cliff with no
phase-out. -/
theorem c4_illinois_exemption_cliff :
    (∀ fd : FormData,
      (Illinois.calculateStateTax fd).taxOwed =
        mathFloor (mathFloor (max 0 (Illinois.calculateGrossIncome fd -
          ilExemptionSpec (Illinois.calculateGrossIncome fd))) * (0.0495 : ℚ)))
    ∧ (Illinois.calculateStateTax fdC4a).taxOwed = 12233
    ∧ (Illinois.calculateStateTax fdC4b).taxOwed = 12375 := by
  refine ⟨fun fd => ?_, ?_, ?_⟩
  · simp only [Illinois.calculateStateTax, Illinois.ILLINOIS_TAX_RATE,
      Illinois.HIGH_INCOME_THRESHOLD, Illinois.PERSONAL_EXEMPTION_SINGLE, ilExemptionSpec]
    split_ifs with h1 h2 <;> first | rfl | (exfalso; linarith)
  · norm_num [Illinois.calculateStateTax, Illinois.calculateGrossIncome,
      Illinois.calculateStateTaxWithheld, Illinois.ILLINOIS_TAX_RATE,
      Illinois.HIGH_INCOME_THRESHOLD, Illinois.PERSONAL_EXEMPTION_SINGLE, mathFloor,
      fdC4a, mkW2, baseFormData, emptyIncomeInfo, List.foldl]
  · norm_num [Illinois.calculateStateTax, Illinois.calculateGrossIncome,
      Illinois.calculateStateTaxWithheld, Illinois.ILLINOIS_TAX_RATE,
      Illinois.HIGH_INCOME_THRESHOLD, Illinois.PERSONAL_EXEMPTION_SINGLE, mathFloor,
      fdC4b, mkW2, baseFormData, emptyIncomeInfo, List.foldl]

/-- C5: the payable path is refused (button hidden, refusal message shown)
exactly when federal amountOwed + state amountOwed exceeds federal refund +
state refund, a decision taken on the combined totals of both computed
results; in particular federal refund 200 with state amountOwed 500 (`tC5`)
is refused. -/
theorem c5_net_underpayment_refusal :
    (∀ t : TaxCalculationResult,
      proceedToPaymentShown t = false ↔
        t.federalTax.refund + t.stateTax.refund <
          t.federalTax.amountOwed + t.stateTax.amountOwed)
    ∧ hasNetUnderpayment tC5 = true ∧ proceedToPaymentShown tC5 = false := by
  refine ⟨fun t => ?_, ?_, ?_⟩
  · simp [proceedToPaymentShown, hasNetUnderpayment, totalOwed, totalRefund]
  · norm_num [hasNetUnderpayment, totalOwed, totalRefund, tC5]
  · norm_num [proceedToPaymentShown, hasNetUnderpayment, totalOwed, totalRefund, tC5]

/-- C6: `calculateDaysInUSForYear` clips each visit to the year and sums
per-visit day counts: an empty visit list yields 0; a visit with no
entryDate contributes nothing; the total is the sum of per-visit
contributions; a visit entirely outside the year contributes 0; a visit
whose exit falls within the year contributes clippedExit − clippedEntry
(the entry day counts, the exit day does not); a visit extending past the
year end, and an open-ended visit queried for a fully past year, both
contribute through Dec 31 inclusive (… − clippedEntry + 1). -/
theorem c6_day_presence_clipping :
    (∀ (today : ℤ) (ri : ResidencyInfo) (year : ℕ),
        calculateDaysInUSForYear today { ri with visits := [] } year = 0)
    ∧ (∀ (today : ℤ) (ri : ResidencyInfo) (year : ℕ) (v : Visit) (rest : List Visit),
        v.entryDate = none →
        calculateDaysInUSForYear today { ri with visits := v :: rest } year =
          calculateDaysInUSForYear today { ri with visits := rest } year)
    ∧ (∀ (today : ℤ) (ri : ResidencyInfo) (year : ℕ),
        calculateDaysInUSForYear today ri year =
          (ri.visits.map (visitDays today (yearStartDay year) (yearEndDay year))).sum)
    ∧ (∀ (today : ℤ) (year : ℕ) (vt : String) (e x : ℤ),
        x < yearStartDay year ∨ yearEndDay year < e →
        visitDays today (yearStartDay year) (yearEndDay year) ⟨vt, some e, some x⟩ = 0)
    ∧ (∀ (today : ℤ) (year : ℕ) (vt : String) (e x : ℤ),
        yearStartDay year ≤ x → x ≤ yearEndDay year → e ≤ x →
        visitDays today (yearStartDay year) (yearEndDay year) ⟨vt, some e, some x⟩ =
          x - max e (yearStartDay year))
    ∧ (∀ (today : ℤ) (year : ℕ) (vt : String) (e x : ℤ),
        1 ≤ year → e ≤ yearEndDay year → yearEndDay year < x →
        visitDays today (yearStartDay year) (yearEndDay year) ⟨vt, some e, some x⟩ =
          yearEndDay year - max e (yearStartDay year) + 1)
    ∧ (∀ (today : ℤ) (year : ℕ) (vt : String) (e : ℤ),
        1 ≤ year → e ≤ yearEndDay year → yearEndDay year ≤ today →
        visitDays today (yearStartDay year) (yearEndDay year) ⟨vt, some e, none⟩ =
          yearEndDay year - max e (yearStartDay year) + 1) := by
  refine ⟨fun today ri year => ?_, fun today ri year v rest hv => ?_, fun today ri year => ?_,
    fun today year vt e x h => ?_, fun today year vt e x h1 h2 h3 => ?_,
    fun today year vt e x hy h1 h2 => ?_, fun today year vt e hy h1 h2 => ?_⟩
  · simp [calculateDaysInUSForYear]
  · rw [calculateDaysInUSForYear_eq_sum, calculateDaysInUSForYear_eq_sum]
    simp [visitDays_of_entryDate_none hv]
  · exact calculateDaysInUSForYear_eq_sum today ri year
  · simp only [visitDays]
    split_ifs <;> omega
  · simp only [visitDays]
    split_ifs <;> omega
  · have hys := yearStartDay_le_yearEndDay hy
    simp only [visitDays]
    split_ifs <;> omega
  · have hys := yearStartDay_le_yearEndDay hy
    simp only [visitDays]
    split_ifs <;> omega

/-- C6 witness: the clipping rules evaluated on concrete 2024 data
(Jan 1 2024 is day 738885, Dec 31 2024 day 739250). -/
theorem c6_day_presence_clipping_witness :
    calculateDaysInUSForYear 800000
        { dateOfFirstVisit := "", visits := [⟨"F1", none, none⟩],
          hasFiledTaxReturnBefore := false } 2024 =
      calculateDaysInUSForYear 800000
        { dateOfFirstVisit := "", visits := [], hasFiledTaxReturnBefore := false } 2024
    ∧ visitDays 800000 (yearStartDay 2024) (yearEndDay 2024) ⟨"F1", some 738000, some 738100⟩ = 0
    ∧ visitDays 800000 (yearStartDay 2024) (yearEndDay 2024) ⟨"F1", some 738900, some 738910⟩ =
        738910 - max 738900 (yearStartDay 2024)
    ∧ visitDays 800000 (yearStartDay 2024) (yearEndDay 2024) ⟨"F1", some 738900, some 739400⟩ =
        yearEndDay 2024 - max 738900 (yearStartDay 2024) + 1
    ∧ visitDays 800000 (yearStartDay 2024) (yearEndDay 2024) ⟨"F1", some 738900, none⟩ =
        yearEndDay 2024 - max 738900 (yearStartDay 2024) + 1 :=
  ⟨c6_day_presence_clipping.2.1 800000
      { dateOfFirstVisit := "", visits := [], hasFiledTaxReturnBefore := false }
      2024 ⟨"F1", none, none⟩ [] rfl,
   c6_day_presence_clipping.2.2.2.1 800000 2024 "F1" 738000 738100 (Or.inl (by decide)),
   c6_day_presence_clipping.2.2.2.2.1 800000 2024 "F1" 738900 738910
     (by decide) (by decide) (by decide),
   c6_day_presence_clipping.2.2.2.2.2.1 800000 2024 "F1" 738900 739400
     (by decide) (by decide) (by decide),
   c6_day_presence_clipping.2.2.2.2.2.2 800000 2024 "F1" 738900
     (by decide) (by decide) (by decide)⟩

/-- C7: the day count is monotone in each visit's interval — replacing the
i-th visit's exit date by a later one never decreases the total, and
replacing its entry date by a later one never increases it. -/
theorem c7_day_presence_monotonicity :
    (∀ (today : ℤ) (ri : ResidencyInfo) (year : ℕ) (i : ℕ) (vt : String) (e x x' : ℤ),
        ri.visits[i]? = some ⟨vt, some e, some x⟩ → x ≤ x' →
        calculateDaysInUSForYear today ri year ≤
          calculateDaysInUSForYear today
            { ri with visits := ri.visits.set i ⟨vt, some e, some x'⟩ } year)
    ∧ (∀ (today : ℤ) (ri : ResidencyInfo) (year : ℕ) (i : ℕ) (vt : String) (e e' : ℤ)
        (ex : Option ℤ),
        ri.visits[i]? = some ⟨vt, some e, ex⟩ → e ≤ e' →
        calculateDaysInUSForYear today
            { ri with visits := ri.visits.set i ⟨vt, some e', ex⟩ } year ≤
          calculateDaysInUSForYear today ri year) := by
  constructor
  · intro today ri year i vt e x x' h hx
    rw [calculateDaysInUSForYear_eq_sum, calculateDaysInUSForYear_eq_sum]
    exact sum_map_le_sum_map_set _ _ i _ _ h
      (visitDays_exit_mono today (yearStartDay year) (yearEndDay year) vt e x x' hx)
  · intro today ri year i vt e e' ex h he
    rw [calculateDaysInUSForYear_eq_sum, calculateDaysInUSForYear_eq_sum]
    exact sum_map_set_le_sum_map _ _ i _ _ h
      (visitDays_entry_mono today (yearStartDay year) (yearEndDay year) vt e e' ex he)

/-- C7 witness: monotonicity applied to a concrete one-visit record in
2024, moving the exit later (738910 → 738920) and the entry later
(738900 → 738905). -/
theorem c7_day_presence_monotonicity_witness :
    calculateDaysInUSForYear 800000 riC7 2024 ≤
      calculateDaysInUSForYear 800000
        { riC7 with visits := riC7.visits.set 0 ⟨"F1", some 738900, some 738920⟩ } 2024
    ∧ calculateDaysInUSForYear 800000
        { riC7 with visits := riC7.visits.set 0 ⟨"F1", some 738905, some 738910⟩ } 2024 ≤
      calculateDaysInUSForYear 800000 riC7 2024 :=
  ⟨c7_day_presence_monotonicity.1 800000 riC7 2024 0 "F1" 738900 738910 738920
     (by decide) (by decide),
   c7_day_presence_monotonicity.2 800000 riC7 2024 0 "F1" 738900 738905 (some 738910)
     (by decide) (by decide)⟩

/-- C8: any record whose foreign-address country does not normalise (via
toLowerCase/trim) to one of the accepted India spellings — "india",
"indian", the empty string, or the "foreign country" placeholder — makes
`calculateTax` fail with the unsupported-jurisdiction error naming the raw
country; no other country's rule is ever applied. -/
theorem c8_unsupported_country_error (fd : FormData)
    (hne : fd.personalInfo.foreignAddress.country ≠ "")
    (h1 : normalizeCountry fd.personalInfo.foreignAddress.country ≠ "india")
    (h2 : normalizeCountry fd.personalInfo.foreignAddress.country ≠ "indian")
    (h3 : normalizeCountry fd.personalInfo.foreignAddress.country ≠ "")
    (h4 : normalizeCountry fd.personalInfo.foreignAddress.country ≠ "foreign country") :
    calculateTax fd = Except.error
      ("Federal tax calculation not yet supported for " ++ fd.personalInfo.foreignAddress.country ++
        " students. Currently only India is supported.") := by
  have hcond : ¬ (normalizeCountry fd.personalInfo.foreignAddress.country = "india"
      ∨ normalizeCountry fd.personalInfo.foreignAddress.country = "indian"
      ∨ normalizeCountry fd.personalInfo.foreignAddress.country = ""
      ∨ normalizeCountry fd.personalInfo.foreignAddress.country = "foreign country"
      ∨ fd.personalInfo.foreignAddress.country = "") := by
    rintro (hc | hc | hc | hc | hc)
    exacts [h1 hc, h2 hc, h3 hc, h4 hc, hne hc]
  simp only [calculateTax, if_neg hne, if_neg hcond]

/-- C8 witness: a German record is rejected with the unsupported-country
error. -/
theorem c8_unsupported_country_error_witness :
    fdC8.personalInfo.foreignAddress.country ≠ ""
    ∧ normalizeCountry fdC8.personalInfo.foreignAddress.country ≠ "india"
    ∧ normalizeCountry fdC8.personalInfo.foreignAddress.country ≠ "indian"
    ∧ normalizeCountry fdC8.personalInfo.foreignAddress.country ≠ ""
    ∧ normalizeCountry fdC8.personalInfo.foreignAddress.country ≠ "foreign country"
    ∧ calculateTax fdC8 = Except.error
        "Federal tax calculation not yet supported for Germany students. Currently only India is supported." := by
  refine ⟨by decide, by decide, by decide, by decide, by decide, ?_⟩
  have h := c8_unsupported_country_error fdC8 (by decide) (by decide) (by decide) (by decide)
    (by decide)
  exact h.trans (congrArg Except.error (by decide))

/-- C9 (counterexample): the claim says every SSN field written by the form
mappers uses the dash grouping when a full 9-digit SSN is present.  On
`fdC9` (SSN 123456789, 9 digits) Form 8843's SSN field is dashed but Form
1040-NR's SSN field `f1_16` receives the undashed digit string, so the
universal claim fails. -/
theorem c9_ssn_formatting_cex :
    jsLength (cleanDigits ((fdC9.incomeInfo.ssn).getD "")) = 9
    ∧ form8843SSNValue fdC9 = "123-45-6789"
    ∧ form1040nrSSNValue fdC9 = "123456789"
    ∧ ¬ (form1040nrSSNValue fdC9 = "123-45-6789") := by decide

/-- C9 (amended): the SSN fields rendered through `formatSSN` (Form 8843,
Form IL-1040, Schedule O) use the dash grouping XXX-XX-XXXX exactly when 9
digits are present and the raw cleaned digit string otherwise; the Form
1040-NR SSN field, however, always receives the undashed cleaned digit
string. -/
theorem c9_ssn_formatting_amended :
    (∀ ssn : String, jsLength (cleanDigits ssn) = 9 →
      formatSSN ssn = jsSlice (cleanDigits ssn) 0 3 ++ "-" ++ jsSlice (cleanDigits ssn) 3 5 ++
        "-" ++ jsSliceFrom (cleanDigits ssn) 5)
    ∧ (∀ ssn : String, jsLength (cleanDigits ssn) ≠ 9 → formatSSN ssn = cleanDigits ssn)
    ∧ (∀ fd : FormData, (form1040nrSSNValue fd).data.all Char.isDigit = true) := by
  refine ⟨fun s h => ?_, fun s h => ?_, fun fd => ?_⟩
  · by_cases hs : s = ""
    · subst hs
      simp [cleanDigits, jsLength] at h
    · unfold formatSSN
      rw [if_neg hs, if_pos h]
  · by_cases hs : s = ""
    · subst hs
      rfl
    · unfold formatSSN
      rw [if_neg hs, if_neg h]
  · apply List.all_eq_true.mpr
    intro c hc
    exact List.of_mem_filter hc

/-- C9 witness: the formatting rules on a dashed 9-digit input and on a
5-digit fragment. -/
theorem c9_ssn_formatting_witness :
    jsLength (cleanDigits "123-45-6789") = 9
    ∧ formatSSN "123-45-6789" = jsSlice (cleanDigits "123-45-6789") 0 3 ++ "-" ++
        jsSlice (cleanDigits "123-45-6789") 3 5 ++ "-" ++ jsSliceFrom (cleanDigits "123-45-6789") 5
    ∧ jsLength (cleanDigits "12345") ≠ 9
    ∧ formatSSN "12345" = cleanDigits "12345" :=
  ⟨by decide, c9_ssn_formatting_amended.1 "123-45-6789" (by decide), by decide,
   c9_ssn_formatting_amended.2.1 "12345" (by decide)⟩

/-- C10: Schedule IL-WIT renders at most 5 W-2 rows — the filled schedule
is unchanged if the W-2 list is truncated to its first five entries, is
entirely independent of the 1099-INT/1099-MISC lists, its 'Total amount'
accumulator is the sum of floor(stateTaxWithheld) over only the first five
W-2 entries, and that total is what the schedule writes. -/
theorem c10_ilwit_truncation :
    (∀ fd : FormData,
      fillFormIL1040ScheduleILWIT fd =
        fillFormIL1040ScheduleILWIT
          { fd with incomeInfo :=
              { fd.incomeInfo with w2Forms := fd.incomeInfo.w2Forms.take MAX_W2_ROWS } })
    ∧ (∀ (fd : FormData) (ints : List Form1099INT) (miscs : List Form1099MISC),
      fillFormIL1040ScheduleILWIT
          { fd with incomeInfo :=
              { fd.incomeInfo with form1099INT := ints, form1099MISC := miscs } } =
        fillFormIL1040ScheduleILWIT fd)
    ∧ (∀ fd : FormData,
      ilwitTotal fd =
        ((fd.incomeInfo.w2Forms.take MAX_W2_ROWS).map (fun w2 => ⌊w2.stateTaxWithheld⌋)).sum)
    ∧ (∀ fd : FormData,
      ("Total amount", toString (ilwitTotal fd)) ∈ fillFormIL1040ScheduleILWIT fd) := by
  refine ⟨fun fd => ?_, fun fd ints miscs => rfl, fun fd => ilwitRows_snd_eq _ _, fun fd => ?_⟩
  · simp [fillFormIL1040ScheduleILWIT, ilwitTotal, List.take_take]
  · simp [fillFormIL1040ScheduleILWIT]

end F1TaxMate
